import Mathlib

/-
Shallow embedding of drivers/staging/android/lowmemorykiller.c
(msm7x27 Android kernel tree).

Modelling conventions:
* machine `int` values become `Int` (values involved are tiny, no overflow
  is exercised by the driver's arithmetic);
* each candidate process is modelled as a single-threaded task, so
  `test_task_flag(tsk, f)` (scan over all threads of the group) and
  `test_tsk_thread_flag(p, f)` coincide, and `find_lock_task_mm` is the
  task itself when it still has an `mm` (field `hasMm`);
* the kernel rbtree `tasksadj` is modelled as a plain binary search tree:
  `rb_insert_color` only rebalances by rotations, which preserve the
  in-order sequence, so the in-order list of the unbalanced tree is
  exactly the `rb_first`/`rb_next` traversal order of the rbtree;
* zone page counters and watermark tests are inputs (the kernel reads
  them from `struct zone`), carried in the `Zone` / `TuneParamCtx`
  records; `gfp_zone`/`first_zones_zonelist` results are carried as the
  `classzoneIdx` field;
* the interruptible mutex acquisition and the caller's flags are inputs
  (`lockInterrupted`, `leaderExiting`, `leaderMemdie`);
* observable effects of `lowmem_shrink` (return value, SIGKILL target,
  TIF_MEMDIE self-marking, mutex acquire/unlock balance, update of
  `lowmem_deathpending_timeout`) are returned in a `ShrinkResult` record.
-/

namespace Lmk

/-- ZONE_MOVABLE's index in the zone enumeration; the driver skips such
zones explicitly (printing a FIXME, since msm7x27 should not have any). -/
def ZONE_MOVABLE : Nat := 3

/-- OOM_SCORE_ADJ_MAX from the source (line 51). -/
def OOM_SCORE_ADJ_MAX : Int := 1000

/-- Timer tick rate; `lowmem_deathpending_timeout = jiffies + HZ`.  The
exact value is immaterial to every property proved below. -/
def HZ : Int := 100

/-- One memory zone as read by `tune_lmk_zone_param`: its index in the
zonelist, its page counters, and the two kernel queries the function
makes about it (`zone->lowmem_reserve[classzone_idx]` and
`zone_watermark_ok(zone, 0, 0, classzone_idx, 0)`), both as functions of
the classzone index. -/
structure Zone where
  idx : Nat
  freePages : Int
  filePages : Int
  shmemPages : Int
  lowmemReserve : Nat → Int
  wmarkOk : Nat → Bool

/-- tune_lmk_zone_param (source lines 118-151): walk the zonelist;
skip ZONE_MOVABLE; for zones above the classzone subtract their free
pages from `other_free` and their file-minus-shmem pages from
`other_file` (when a non-NULL `other_file` was passed, modelled as
`some`); for zones below the classzone subtract either the zone's
lowmem reserve for the classzone (watermark ok) or its free pages. -/
def tune_lmk_zone_param : List Zone → Nat → Int → Option Int → Int × Option Int
  | [], _, other_free, other_file => (other_free, other_file)
  | z :: zs, classzone_idx, other_free, other_file =>
    if z.idx = ZONE_MOVABLE then
      tune_lmk_zone_param zs classzone_idx other_free other_file
    else if classzone_idx < z.idx then
      tune_lmk_zone_param zs classzone_idx (other_free - z.freePages)
        (other_file.map (fun f => f - (z.filePages - z.shmemPages)))
    else if z.idx < classzone_idx then
      if z.wmarkOk classzone_idx then
        tune_lmk_zone_param zs classzone_idx
          (other_free - z.lowmemReserve classzone_idx) other_file
      else
        tune_lmk_zone_param zs classzone_idx
          (other_free - z.freePages) other_file
    else
      tune_lmk_zone_param zs classzone_idx other_free other_file

/-- Inputs of `tune_lmk_param` (source lines 157-201): the zonelist for
the request's gfp mask, the preferred zone's index, whether the caller
is kswapd, and the two watermark tests plus the two counters the
function reads from the preferred zone.
`kswapdWmarkOk` is `zone_watermark_ok(preferred_zone, 0,
high_wmark_pages + SWAP_CLUSTER_MAX + balance_gap, 0, 0)`;
`preferredWmarkOk` is `zone_watermark_ok(preferred_zone, 0, 0, _ZONE, 0)`;
`preferredReserve` is `preferred_zone->lowmem_reserve[_ZONE]`. -/
structure TuneParamCtx where
  zones : List Zone
  classzoneIdx : Nat
  isKswapd : Bool
  kswapdWmarkOk : Bool
  preferredWmarkOk : Bool
  preferredReserve : Int
  preferredFree : Int

/-- tune_lmk_param (source lines 157-201).  In the kswapd fast branch
the zone tuning is applied to `other_file` only when `lmk_fast_run` is
set (the `else` passes NULL); the preferred zone's reserve or free pages
are then additionally subtracted from `other_free`.  Outside that branch
the full tuning (with `other_file`) is applied. -/
def tune_lmk_param (lmk_fast_run : Bool) (ctx : TuneParamCtx)
    (other_free other_file : Int) : Int × Int :=
  if ctx.isKswapd && ctx.kswapdWmarkOk then
    let p :=
      if lmk_fast_run then
        tune_lmk_zone_param ctx.zones ctx.classzoneIdx other_free (some other_file)
      else
        tune_lmk_zone_param ctx.zones ctx.classzoneIdx other_free none
    let f :=
      if ctx.preferredWmarkOk then p.1 - ctx.preferredReserve
      else p.1 - ctx.preferredFree
    (f, p.2.getD other_file)
  else
    let p := tune_lmk_zone_param ctx.zones ctx.classzoneIdx other_free (some other_file)
    (p.1, p.2.getD other_file)

/-- One candidate process (its thread group), with the flags the scan
reads: PF_KTHREAD, TIF_MM_RELEASED, TIF_MEMDIE, PF_EXITING, a pending
fatal signal, and whether some thread still holds an `mm`
(`find_lock_task_mm` succeeds).  `adj` is `signal->oom_adj`, `rss` is
`get_mm_rss(mm)`. -/
structure Task where
  id : Nat
  groupId : Nat
  adj : Int
  rss : Int
  kthread : Bool
  mmReleased : Bool
  memdie : Bool
  exiting : Bool
  fatalSignal : Bool
  hasMm : Bool
deriving DecidableEq

/-- The `tasksadj` rbtree, as a plain BST (rotations preserve in-order,
see the file header comment). -/
inductive Rbt where
  | leaf : Rbt
  | node : Rbt → Task → Rbt → Rbt
deriving DecidableEq

/-- add_2_adj_tree (source lines 365-386): note the inverted comparator,
`key < entry->adj` descends RIGHT, otherwise LEFT, so the in-order
sequence is ordered by descending `adj`. -/
def add_2_adj_tree : Rbt → Task → Rbt
  | .leaf, t => .node .leaf t .leaf
  | .node l e r, t =>
    if t.adj < e.adj then .node l e (add_2_adj_tree r t)
    else .node (add_2_adj_tree l t) e r

/-- Register a list of candidates in insertion order. -/
def buildTree (ts : List Task) : Rbt := ts.foldl add_2_adj_tree .leaf

/-- In-order sequence of the tree = `pick_first_task`, `pick_next_from_adj_tree`,
..., `pick_last_task`. -/
def inorder : Rbt → List Task
  | .leaf => []
  | .node l e r => inorder l ++ e :: inorder r

/-- The tasks actually visited by the scan loop
`for (tsk = pick_first_task(); tsk != pick_last_task(); tsk = pick_next_from_adj_tree(tsk))`:
every in-order node except the last (the loop condition stops on
`pick_last_task()` before its body runs; on an empty tree first = last =
NULL and the loop body never runs). -/
def scanList (t : Rbt) : List Task := (inorder t).dropLast

/-- Outcome of the scan loop: either the throttle path taken at a
death-marked candidate inside the grace window (carrying
`same_thread_group(current, tsk)`), or normal completion with the
selected candidate, its tasksize and its oom_adj. -/
inductive ScanOutcome where
  | throttled : Bool → ScanOutcome
  | finished : Option (Task × Int × Int) → ScanOutcome
deriving DecidableEq

/-- The scan loop body of lowmem_shrink (source lines 264-326), as a
recursion over the traversal list.  `sel` is `(selected,
selected_tasksize, selected_oom_adj)`.  Mirrors, in order: the
PF_KTHREAD skip, the TIF_MM_RELEASED skip, the deathpending-window
TIF_MEMDIE abort, the `find_lock_task_mm` failure skip, the
`oom_adj < min_adj` break, the dying-process skip, the `tasksize <= 0`
skip, and the selection/tie-break block. -/
def scanGo (callerGroup : Nat) (min_adj : Int) (inWindow : Bool) :
    Option (Task × Int × Int) → List Task → ScanOutcome
  | sel, [] => .finished sel
  | sel, t :: rest =>
    if t.kthread then scanGo callerGroup min_adj inWindow sel rest
    else if t.mmReleased then scanGo callerGroup min_adj inWindow sel rest
    else if inWindow && t.memdie then .throttled (callerGroup == t.groupId)
    else if !t.hasMm then scanGo callerGroup min_adj inWindow sel rest
    else if t.adj < min_adj then .finished sel
    else if t.fatalSignal || (t.exiting && t.memdie) then
      scanGo callerGroup min_adj inWindow sel rest
    else if t.rss ≤ 0 then scanGo callerGroup min_adj inWindow sel rest
    else
      match sel with
      | some (st, ssize, sadj) =>
        if t.adj < sadj then .finished (some (st, ssize, sadj))
        else if t.adj = sadj ∧ t.rss ≤ ssize then
          scanGo callerGroup min_adj inWindow (some (st, ssize, sadj)) rest
        else scanGo callerGroup min_adj inWindow (some (t, t.rss, t.adj)) rest
      | none => scanGo callerGroup min_adj inWindow (some (t, t.rss, t.adj)) rest

/-- The threshold loop of lowmem_shrink (source lines 238-244), with
`min_adj` initialised to `OOM_SCORE_ADJ_MAX + 1` (line 210): walk rows
`i` upward while fuel remains; the first row with both counters below
`lowmem_minfree[i]` sets `min_adj = lowmem_adj[i]` and breaks. -/
def minAdjLoop (adjs minfree : List Int) (other_free other_file : Int) :
    Nat → Nat → Int
  | _, 0 => OOM_SCORE_ADJ_MAX + 1
  | i, n + 1 =>
    if other_free < minfree.getD i 0 ∧ other_file < minfree.getD i 0 then
      adjs.getD i 0
    else minAdjLoop adjs minfree other_free other_file (i + 1) n

/-- array_size computation (source lines 213, 234-237:
`ARRAY_SIZE(lowmem_adj)` is 6, then clamped by `lowmem_adj_size` and
`lowmem_minfree_size`) followed by the threshold loop. -/
def computeMinAdj (adjs minfree : List Int) (adj_size minfree_size : Nat)
    (other_free other_file : Int) : Int :=
  minAdjLoop adjs minfree other_free other_file 0 (min (min 6 adj_size) minfree_size)

/-- Module parameters / globals read by lowmem_shrink. -/
structure Globals where
  lowmem_adj : List Int
  lowmem_adj_size : Nat
  lowmem_minfree : List Int
  lowmem_minfree_size : Nat
  lmk_fast_run : Bool
  lowmem_deathpending_timeout : Int

/-- The `global_page_state` counters read by lowmem_shrink. -/
structure Counters where
  nrFreePages : Int
  nrFilePages : Int
  nrShmem : Int
  nrActiveAnon : Int
  nrActiveFile : Int
  nrInactiveAnon : Int
  nrInactiveFile : Int

/-- Per-invocation context: the caller (`current`), its group leader's
flags, whether `mutex_lock_interruptible` would be interrupted, the
current `jiffies`, the page counters, the zone data for
`tune_lmk_param`, and the candidate registry. -/
structure CallCtx where
  callerGroup : Nat
  leaderExiting : Bool
  leaderMemdie : Bool
  lockInterrupted : Bool
  jiffies : Int
  counters : Counters
  tune : TuneParamCtx
  tree : Rbt

/-- Observable outcome of one lowmem_shrink call: return value, the pid
killed (if any), whether `current` got TIF_MEMDIE set on itself, whether
`scan_mutex` was acquired and how many times it was unlocked, and the
new `lowmem_deathpending_timeout` when a kill was issued. -/
structure ShrinkResult where
  ret : Int
  killed : Option Nat
  selfMarked : Bool
  lockAcquired : Bool
  unlockCount : Nat
  newDeadline : Option Int
deriving DecidableEq

/-- `(other_free, other_file)` after tuning (source lines 228-232). -/
def tunedCounters (g : Globals) (c : CallCtx) : Int × Int :=
  tune_lmk_param g.lmk_fast_run c.tune c.counters.nrFreePages
    (c.counters.nrFilePages - c.counters.nrShmem)

/-- The `min_adj` value lowmem_shrink computes (source lines 234-244). -/
def minAdjOf (g : Globals) (c : CallCtx) : Int :=
  computeMinAdj g.lowmem_adj g.lowmem_minfree g.lowmem_adj_size
    g.lowmem_minfree_size (tunedCounters g c).1 (tunedCounters g c).2

/-- `rem` (source lines 249-252): the active+inactive anon/file sum. -/
def remOf (c : CallCtx) : Int :=
  c.counters.nrActiveAnon + c.counters.nrActiveFile +
    c.counters.nrInactiveAnon + c.counters.nrInactiveFile

/-- `time_before_eq(jiffies, lowmem_deathpending_timeout)` (line 278). -/
def inWindowOf (g : Globals) (c : CallCtx) : Bool :=
  decide (c.jiffies ≤ g.lowmem_deathpending_timeout)

/-- lowmem_shrink (source lines 203-345).  Return paths, in source
order: the TIF_MEMDIE admission guard (lines 217-221), the interrupted
mutex acquisition (lines 223-226), the no-scan / no-threshold return of
`rem` (lines 253-261, unlocking only when the mutex was taken), and the
post-scan paths: throttle abort (lines 278-289, return 0), kill (lines
327-337, 343-344: set the grace deadline to jiffies + HZ, subtract the
victim's tasksize from `rem`) or no victim (return `rem`). -/
def lowmem_shrink (g : Globals) (c : CallCtx) (nr_to_scan : Int) : ShrinkResult :=
  if c.leaderExiting && c.leaderMemdie then
    { ret := 0, killed := none, selfMarked := true,
      lockAcquired := false, unlockCount := 0, newDeadline := none }
  else if 0 < nr_to_scan ∧ c.lockInterrupted = true then
    { ret := 0, killed := none, selfMarked := false,
      lockAcquired := false, unlockCount := 0, newDeadline := none }
  else if nr_to_scan ≤ 0 ∨ minAdjOf g c = OOM_SCORE_ADJ_MAX + 1 then
    { ret := remOf c, killed := none, selfMarked := false,
      lockAcquired := decide (0 < nr_to_scan),
      unlockCount := if 0 < nr_to_scan then 1 else 0, newDeadline := none }
  else
    match scanGo c.callerGroup (minAdjOf g c) (inWindowOf g c) none (scanList c.tree) with
    | .throttled sameGroup =>
      { ret := 0, killed := none, selfMarked := sameGroup,
        lockAcquired := true, unlockCount := 1, newDeadline := none }
    | .finished none =>
      { ret := remOf c, killed := none, selfMarked := false,
        lockAcquired := true, unlockCount := 1, newDeadline := none }
    | .finished (some (t, tasksize, _)) =>
      { ret := remOf c - tasksize, killed := some t.id, selfMarked := false,
        lockAcquired := true, unlockCount := 1,
        newDeadline := some (c.jiffies + HZ) }

/-- Boolean test that a list of priorities is monotonically
non-decreasing (each element ≤ its successor). -/
def monoNondecreasing : List Int → Bool
  | a :: b :: rest => decide (a ≤ b) && monoNondecreasing (b :: rest)
  | _ => true

/-- Boolean test that a list of priorities is monotonically
non-increasing (each element ≥ its successor). -/
def monoNonincreasing : List Int → Bool
  | a :: b :: rest => decide (b ≤ a) && monoNonincreasing (b :: rest)
  | _ => true

/-! Concrete inputs used by witnesses and counterexamples. -/

/-- Candidate A of the C1 scenario: oom_adj 6, rss 200 pages. -/
def taskA : Task :=
  { id := 1, groupId := 1, adj := 6, rss := 200, kthread := false,
    mmReleased := false, memdie := false, exiting := false,
    fatalSignal := false, hasMm := true }

/-- Candidate B of the C1 scenario: oom_adj 6, rss 500 pages. -/
def taskB : Task :=
  { id := 2, groupId := 2, adj := 6, rss := 500, kthread := false,
    mmReleased := false, memdie := false, exiting := false,
    fatalSignal := false, hasMm := true }

/-- Candidate C of the C1 scenario: oom_adj 12, rss 10 pages. -/
def taskC : Task :=
  { id := 3, groupId := 3, adj := 12, rss := 10, kthread := false,
    mmReleased := false, memdie := false, exiting := false,
    fatalSignal := false, hasMm := true }

/-- A death-marked candidate (oom_adj 10) for the throttle scenario. -/
def taskD : Task :=
  { id := 4, groupId := 7, adj := 10, rss := 300, kthread := false,
    mmReleased := false, memdie := true, exiting := false,
    fatalSignal := false, hasMm := true }

/-- A low-adj candidate placed after taskD in the traversal. -/
def taskE : Task :=
  { id := 5, groupId := 5, adj := 0, rss := 50, kthread := false,
    mmReleased := false, memdie := false, exiting := false,
    fatalSignal := false, hasMm := true }

/-- The driver's default module parameters (source lines 54-69) with a
zero deathpending timeout. -/
def g0 : Globals :=
  { lowmem_adj := [0, 1, 6, 12, 15], lowmem_adj_size := 4,
    lowmem_minfree := [1536, 2048, 4096, 16384], lowmem_minfree_size := 4,
    lmk_fast_run := true, lowmem_deathpending_timeout := 0 }

/-- A tuning context with an empty zonelist and a non-kswapd caller:
`tune_lmk_param` then leaves both counters unchanged. -/
def tuneId : TuneParamCtx :=
  { zones := [], classzoneIdx := 0, isKswapd := false, kswapdWmarkOk := false,
    preferredWmarkOk := true, preferredReserve := 0, preferredFree := 0 }

/-- Counters putting both tuned figures at 3000 pages, which crosses the
4096 minfree row and yields min_adj = 6, with rem = 10000. -/
def counters1 : Counters :=
  { nrFreePages := 3000, nrFilePages := 3000, nrShmem := 0,
    nrActiveAnon := 4000, nrActiveFile := 3000,
    nrInactiveAnon := 2000, nrInactiveFile := 1000 }

/-- The C1 scenario call context: healthy caller, uninterrupted lock,
jiffies outside the (zero) grace window, registry {A, B, C}. -/
def ctx1 : CallCtx :=
  { callerGroup := 0, leaderExiting := false, leaderMemdie := false,
    lockInterrupted := false, jiffies := 1000, counters := counters1,
    tune := tuneId, tree := buildTree [taskA, taskB, taskC] }

/-- Throttle scenario context: jiffies 5 inside a grace window ending at
10, registry {D (death-marked), E}, caller in D's thread group. -/
def ctxThrottle : CallCtx :=
  { callerGroup := 7, leaderExiting := false, leaderMemdie := false,
    lockInterrupted := false, jiffies := 5, counters := counters1,
    tune := tuneId, tree := buildTree [taskE, taskD] }

/-- Globals with the default tables and a grace window ending at 10. -/
def gWindow : Globals :=
  { g0 with lowmem_deathpending_timeout := 10 }

/-!  Theorems. -/

/-- C1 counterexample: with the registry {A: adj 6 rss 200, B: adj 6 rss
500, C: adj 12 rss 10} (inserted in that order) and an effective floor
of 6, the reclaim scan kills C, not B, and the traversal priorities are
[12, 6, 6], which is not monotonically non-decreasing.  This refutes the
claim that traversal is non-decreasing in priority, that B is selected,
and that C is never selected. -/
theorem scan_order_claim_false :
    (lowmem_shrink g0 ctx1 128).killed = some taskC.id
    ∧ (lowmem_shrink g0 ctx1 128).killed ≠ some taskB.id
    ∧ (inorder ctx1.tree).map Task.adj = [12, 6, 6]
    ∧ monoNondecreasing ((inorder ctx1.tree).map Task.adj) = false := by
  decide

/-- C1 amended: for the registry {A, B, C} under any of the six
insertion orders and an effective floor of 6, the traversal is
monotonically non-increasing in priority and the scan selects C (the
numerically largest priority, i.e. least important candidate) as the
victim, halting at the first priority-6 candidate; neither A nor B is
ever selected. -/
theorem scan_order_amended :
    ∀ perm ∈ [[taskA, taskB, taskC], [taskA, taskC, taskB],
              [taskB, taskA, taskC], [taskB, taskC, taskA],
              [taskC, taskA, taskB], [taskC, taskB, taskA]],
      monoNonincreasing ((inorder (buildTree perm)).map Task.adj) = true
      ∧ (lowmem_shrink g0 { ctx1 with tree := buildTree perm } 128).killed
          = some taskC.id
      ∧ (lowmem_shrink g0 { ctx1 with tree := buildTree perm } 128).killed
          ≠ some taskB.id
      ∧ (lowmem_shrink g0 { ctx1 with tree := buildTree perm } 128).killed
          ≠ some taskA.id := by
  decide

/-- Witness for C1 (amended): the insertion order A, B, C produces the
non-increasing traversal [12, 6, 6] and the scan kills C. -/
theorem scan_order_amended_wit :
    monoNonincreasing ((inorder (buildTree [taskA, taskB, taskC])).map Task.adj) = true
    ∧ (lowmem_shrink g0 { ctx1 with tree := buildTree [taskA, taskB, taskC] } 128).killed
        = some taskC.id
    ∧ (lowmem_shrink g0 { ctx1 with tree := buildTree [taskA, taskB, taskC] } 128).killed
        ≠ some taskB.id
    ∧ (lowmem_shrink g0 { ctx1 with tree := buildTree [taskA, taskB, taskC] } 128).killed
        ≠ some taskA.id :=
  scan_order_amended [taskA, taskB, taskC] (by decide)

/-- Helper: the threshold loop started at absolute index `i` with `n`
rows of fuel returns row `i + k`'s adj value when row `i + k` is the
first matching row within the fuel. -/
theorem minAdjLoop_first (adjs minfree : List Int) (of0 of1 : Int) :
    ∀ (n k i : Nat), k < n →
      (of0 < minfree.getD (i + k) 0 ∧ of1 < minfree.getD (i + k) 0) →
      (∀ j, j < k → ¬(of0 < minfree.getD (i + j) 0 ∧ of1 < minfree.getD (i + j) 0)) →
      minAdjLoop adjs minfree of0 of1 i n = adjs.getD (i + k) 0 := by
  intro n
  induction n with
  | zero => intro k i hk; omega
  | succ n ih =>
    intro k i hk hmatch hfirst
    cases k with
    | zero =>
      have hm : of0 < minfree.getD i 0 ∧ of1 < minfree.getD i 0 := by
        simpa using hmatch
      simp only [minAdjLoop]
      rw [if_pos hm]
      simp
    | succ k =>
      have hnot : ¬(of0 < minfree.getD i 0 ∧ of1 < minfree.getD i 0) := by
        simpa using hfirst 0 (Nat.succ_pos k)
      simp only [minAdjLoop]
      rw [if_neg hnot]
      have hmatch2 : of0 < minfree.getD (i + 1 + k) 0 ∧ of1 < minfree.getD (i + 1 + k) 0 := by
        have : i + 1 + k = i + (k + 1) := by omega
        rw [this]; exact hmatch
      have hfirst2 :
          ∀ j, j < k → ¬(of0 < minfree.getD (i + 1 + j) 0 ∧ of1 < minfree.getD (i + 1 + j) 0) := by
        intro j hj
        have : i + 1 + j = i + (j + 1) := by omega
        rw [this]; exact hfirst (j + 1) (by omega)
      have := ih k (i + 1) (by omega) hmatch2 hfirst2
      rw [this]
      congr 1
      omega

/-- C2: the threshold lookup walks the rows truncated to the common
length in ascending order and returns the priority floor of the first
row whose minfree level exceeds both the free figure and the
reclaimable-file figure, never a later row's value; in particular, with
floors [0, 1, 6, 12, 15] and minfree [1536, 2048, 4096, 16384], the pair
(1000, 1000) gives floor 0 and the pair (5000, 5000) gives floor 12. -/
theorem threshold_first_match (adjs minfree : List Int) (adj_size minfree_size : Nat)
    (of0 of1 : Int) (i : Nat)
    (hi : i < min (min 6 adj_size) minfree_size)
    (hmatch : of0 < minfree.getD i 0 ∧ of1 < minfree.getD i 0)
    (hfirst : ∀ j, j < i → ¬(of0 < minfree.getD j 0 ∧ of1 < minfree.getD j 0)) :
    computeMinAdj adjs minfree adj_size minfree_size of0 of1 = adjs.getD i 0
    ∧ computeMinAdj [0, 1, 6, 12, 15] [1536, 2048, 4096, 16384] 5 4 1000 1000 = 0
    ∧ computeMinAdj [0, 1, 6, 12, 15] [1536, 2048, 4096, 16384] 5 4 5000 5000 = 12 := by
  refine ⟨?_, by decide, by decide⟩
  have := minAdjLoop_first adjs minfree of0 of1 (min (min 6 adj_size) minfree_size) i 0
    hi (by simpa using hmatch) (by simpa using hfirst)
  simpa [computeMinAdj] using this

/-- Witness for C2: row 3 is the first match for (5000, 5000) against
the default tables, so the lookup yields floor 12. -/
theorem threshold_first_match_wit :
    computeMinAdj [0, 1, 6, 12, 15] [1536, 2048, 4096, 16384] 5 4 5000 5000 = 12 := by
  have h := threshold_first_match [0, 1, 6, 12, 15] [1536, 2048, 4096, 16384] 5 4
    (5000 : Int) (5000 : Int) 3 (by decide) (by decide)
    (by intro j hj; interval_cases j <;> decide)
  exact h.1.trans (by decide)

/-- C3: at a scan step where a best candidate `st` of priority `sadj`
and footprint `ssize` is already held and the next candidate `t` has the
same priority and is otherwise eligible (not a kernel thread, memory not
released, has an mm, not dying, positive footprint, at or above the
floor), `t` replaces the best exactly when its footprint is strictly
larger; with an equal or smaller footprint the earlier-seen candidate is
retained and the scan moves on. -/
theorem tie_break_rule (callerGroup : Nat) (min_adj : Int) (st t : Task)
    (ssize : Int) (rest : List Task)
    (hk : t.kthread = false) (hmR : t.mmReleased = false)
    (hmm : t.hasMm = true) (hfs : t.fatalSignal = false)
    (hex : t.exiting = false) (hrss : 0 < t.rss) (hadj : min_adj ≤ t.adj) :
    scanGo callerGroup min_adj false (some (st, ssize, t.adj)) (t :: rest) =
      if t.rss ≤ ssize then
        scanGo callerGroup min_adj false (some (st, ssize, t.adj)) rest
      else
        scanGo callerGroup min_adj false (some (t, t.rss, t.adj)) rest := by
  have hnlt : ¬ t.adj < min_adj := not_lt.mpr hadj
  have hnrss : ¬ t.rss ≤ 0 := not_le.mpr hrss
  simp only [scanGo, hk, hmR, hmm, hfs, hex, Bool.false_and, Bool.and_false,
    Bool.false_or, Bool.or_false, Bool.not_true, if_false, if_neg hnlt,
    if_neg hnrss, lt_irrefl, ite_false, Bool.false_eq_true]
  by_cases h : t.rss ≤ ssize
  · rw [if_pos ⟨trivial, h⟩, if_pos h]
  · rw [if_neg (by simpa using h), if_neg h]

/-- Witness for C3: with the best at (taskA, footprint 200, adj 6), the
next candidate taskB (adj 6, footprint 500 > 200) replaces it. -/
theorem tie_break_rule_wit :
    scanGo 0 6 false (some (taskA, 200, taskB.adj)) [taskB] =
      .finished (some (taskB, 500, taskB.adj)) := by
  have h := tie_break_rule 0 6 taskA taskB 200 [] rfl rfl rfl rfl rfl
    (by decide) (by decide)
  rw [h]
  decide

/-- C4: within the grace window after a kill, (a) from any scan state, a
traversal step that encounters a death-marked candidate (that was not
already skipped as a kernel thread or for released memory) aborts with
the throttle outcome, recording whether the caller is in that
candidate's own thread group; and (b) whenever the scan of a reclaim
call aborts with the throttle outcome, the call issues no kill and
returns 0, with the caller marking itself dying exactly when it is in
the dying candidate's thread group, and the grace deadline unchanged. -/
theorem throttle_window (g : Globals) (c : CallCtx) (nr_to_scan : Int)
    (hadm : (c.leaderExiting && c.leaderMemdie) = false)
    (hnr : 0 < nr_to_scan) (hlock : c.lockInterrupted = false)
    (hwin : c.jiffies ≤ g.lowmem_deathpending_timeout)
    (hfloor : minAdjOf g c ≠ OOM_SCORE_ADJ_MAX + 1) :
    (∀ sel (t : Task) (rest : List Task),
        t.kthread = false → t.mmReleased = false → t.memdie = true →
        scanGo c.callerGroup (minAdjOf g c) true sel (t :: rest) =
          .throttled (c.callerGroup == t.groupId))
    ∧ ∀ b : Bool,
        scanGo c.callerGroup (minAdjOf g c) true none (scanList c.tree) =
          .throttled b →
        lowmem_shrink g c nr_to_scan =
          { ret := 0, killed := none, selfMarked := b,
            lockAcquired := true, unlockCount := 1, newDeadline := none } := by
  have hw : inWindowOf g c = true := by
    simp [inWindowOf, hwin]
  constructor
  · intro sel t rest hk hmR hmd
    simp [scanGo, hk, hmR, hmd]
  · intro b hb
    unfold lowmem_shrink
    rw [if_neg (by simp [hadm]), if_neg (by simp [hlock]),
      if_neg (by push_neg; exact ⟨hnr, hfloor⟩)]
    rw [hw, hb]

/-- Witness for C4: registry {E, D} with D death-marked at the head of
the traversal, jiffies 5 inside the window ending at 10, caller in D's
thread group: the scan throttles and the call returns 0 with no kill,
self-marking the caller. -/
theorem throttle_window_wit :
    scanGo ctxThrottle.callerGroup (minAdjOf gWindow ctxThrottle) true none
        (scanList ctxThrottle.tree) = .throttled true
    ∧ lowmem_shrink gWindow ctxThrottle 128 =
        { ret := 0, killed := none, selfMarked := true,
          lockAcquired := true, unlockCount := 1, newDeadline := none } := by
  have h := throttle_window gWindow ctxThrottle 128 (by decide) (by decide)
    (by decide) (by decide) (by decide)
  have hscan : scanGo ctxThrottle.callerGroup (minAdjOf gWindow ctxThrottle) true none
      (scanList ctxThrottle.tree) = .throttled true := by decide
  exact ⟨hscan, h.2 true hscan⟩

/-- C5: a reclaim call with scan_budget ≤ 0 (from a caller not already
dying) issues no kill regardless of any threshold crossing and returns
the raw sum of the active and inactive anonymous and file page counts,
never having touched the serialization lock. -/
theorem pressure_only_no_kill (g : Globals) (c : CallCtx) (nr_to_scan : Int)
    (hadm : (c.leaderExiting && c.leaderMemdie) = false)
    (hnr : nr_to_scan ≤ 0) :
    lowmem_shrink g c nr_to_scan =
      { ret := c.counters.nrActiveAnon + c.counters.nrActiveFile +
          c.counters.nrInactiveAnon + c.counters.nrInactiveFile,
        killed := none, selfMarked := false,
        lockAcquired := false, unlockCount := 0, newDeadline := none } := by
  have hn : ¬ 0 < nr_to_scan := not_lt.mpr hnr
  unfold lowmem_shrink
  rw [if_neg (by simp [hadm]), if_neg (by simp [hn]), if_pos (Or.inl hnr)]
  simp [remOf, hn]

/-- Witness for C5: the C1 scenario context called with scan_budget 0
returns the raw page sum 10000 and kills nobody. -/
theorem pressure_only_no_kill_wit :
    lowmem_shrink g0 ctx1 0 =
      { ret := 10000, killed := none, selfMarked := false,
        lockAcquired := false, unlockCount := 0, newDeadline := none } := by
  have h := pressure_only_no_kill g0 ctx1 0 (by decide) (by decide)
  exact h.trans (by decide)

/-- C8: a reclaim call with a positive scan budget whose interruptible
acquisition of the scan serialization lock is interrupted returns 0
immediately: nothing is killed, nobody is marked, the lock is never
held, and the grace deadline is untouched. -/
theorem interrupted_lock_returns_zero (g : Globals) (c : CallCtx) (nr_to_scan : Int)
    (hadm : (c.leaderExiting && c.leaderMemdie) = false)
    (hnr : 0 < nr_to_scan) (hint : c.lockInterrupted = true) :
    lowmem_shrink g c nr_to_scan =
      { ret := 0, killed := none, selfMarked := false,
        lockAcquired := false, unlockCount := 0, newDeadline := none } := by
  unfold lowmem_shrink
  rw [if_neg (by simp [hadm]), if_pos ⟨hnr, hint⟩]

/-- Witness for C8: the C1 scenario context with an interrupted lock
wait returns the zero result. -/
theorem interrupted_lock_returns_zero_wit :
    lowmem_shrink g0 { ctx1 with lockInterrupted := true } 128 =
      { ret := 0, killed := none, selfMarked := false,
        lockAcquired := false, unlockCount := 0, newDeadline := none } :=
  interrupted_lock_returns_zero g0 { ctx1 with lockInterrupted := true } 128
    (by decide) (by decide) (by decide)

/-- C9: when the caller's group leader is exiting and some thread of it
carries TIF_MEMDIE, the reclaim entry point marks the caller dying and
returns 0 before acquiring the serialization lock or scanning. -/
theorem self_dying_admission (g : Globals) (c : CallCtx) (nr_to_scan : Int)
    (hex : c.leaderExiting = true) (hmd : c.leaderMemdie = true) :
    lowmem_shrink g c nr_to_scan =
      { ret := 0, killed := none, selfMarked := true,
        lockAcquired := false, unlockCount := 0, newDeadline := none } := by
  unfold lowmem_shrink
  rw [if_pos (by simp [hex, hmd])]

/-- Witness for C9: a dying caller in the C1 scenario context is
self-marked and gets 0 back without the lock being taken. -/
theorem self_dying_admission_wit :
    lowmem_shrink g0 { ctx1 with leaderExiting := true, leaderMemdie := true } 128 =
      { ret := 0, killed := none, selfMarked := true,
        lockAcquired := false, unlockCount := 0, newDeadline := none } :=
  self_dying_admission g0
    { ctx1 with leaderExiting := true, leaderMemdie := true } 128 rfl rfl

/-- C10: on every return path of the reclaim entry point, the scan
serialization lock is unlocked exactly once when it was acquired and
never otherwise — the unlock count always equals 1 for lock-holding
paths (the early no-scan return, the throttle abort, and the final
return after a kill or an exhausted scan) and 0 for the paths that never
acquired it. -/
theorem scan_mutex_balanced (g : Globals) (c : CallCtx) (nr_to_scan : Int) :
    (lowmem_shrink g c nr_to_scan).unlockCount =
      if (lowmem_shrink g c nr_to_scan).lockAcquired then 1 else 0 := by
  unfold lowmem_shrink
  split
  · rfl
  split
  · rfl
  split
  · by_cases h : 0 < nr_to_scan <;> simp [h]
  split <;> rfl

/-- Total free-page debit described by the spec: zones more restrictive
than the classzone (higher index) contribute their free pages; zones
more permissive (lower index) contribute their lowmem reserve for the
classzone when their watermark is satisfied and their free pages
otherwise. -/
def zoneFreeDebit (classzone_idx : Nat) : List Zone → Int
  | [] => 0
  | z :: zs =>
    (if classzone_idx < z.idx then z.freePages
     else if z.idx < classzone_idx then
       (if z.wmarkOk classzone_idx then z.lowmemReserve classzone_idx
        else z.freePages)
     else 0) + zoneFreeDebit classzone_idx zs

/-- Total reclaimable-file debit described by the spec: zones more
restrictive than the classzone contribute their file-minus-shared
pages. -/
def zoneFileDebit (classzone_idx : Nat) : List Zone → Int
  | [] => 0
  | z :: zs =>
    (if classzone_idx < z.idx then z.filePages - z.shmemPages else 0) +
      zoneFileDebit classzone_idx zs

/-- Helper: on a zonelist without ZONE_MOVABLE entries (the msm7x27
situation the driver's own FIXME comment asserts), the zone tuning with
a non-NULL file pointer equals the two debit sums. -/
theorem tune_zone_closed (classzone_idx : Nat) :
    ∀ zones : List Zone, (∀ z ∈ zones, z.idx ≠ ZONE_MOVABLE) →
      ∀ other_free other_file : Int,
        tune_lmk_zone_param zones classzone_idx other_free (some other_file) =
          (other_free - zoneFreeDebit classzone_idx zones,
           some (other_file - zoneFileDebit classzone_idx zones)) := by
  intro zones
  induction zones with
  | nil =>
    intro _ other_free other_file
    simp [tune_lmk_zone_param, zoneFreeDebit, zoneFileDebit]
  | cons z zs ih =>
    intro hmov other_free other_file
    have hz : z.idx ≠ ZONE_MOVABLE := hmov z (by simp)
    have hzs : ∀ w ∈ zs, w.idx ≠ ZONE_MOVABLE := fun w hw => hmov w (by simp [hw])
    simp only [tune_lmk_zone_param, zoneFreeDebit, zoneFileDebit]
    rw [if_neg hz]
    by_cases h1 : classzone_idx < z.idx
    · rw [if_pos h1, if_pos h1, if_pos h1]
      rw [show ((some other_file).map fun f => f - (z.filePages - z.shmemPages)) =
            some (other_file - (z.filePages - z.shmemPages)) from rfl]
      rw [ih hzs]
      simp [sub_sub]
    · rw [if_neg h1, if_neg h1, if_neg h1]
      by_cases h2 : z.idx < classzone_idx
      · rw [if_pos h2, if_pos h2]
        by_cases h3 : z.wmarkOk classzone_idx
        · rw [if_pos h3, if_pos h3, ih hzs]
          simp [sub_sub]
        · rw [if_neg h3, if_neg h3, ih hzs]
          simp [sub_sub]
      · rw [if_neg h2, if_neg h2, ih hzs]
        simp

/-- Helper: with a NULL file pointer the zone tuning leaves the file
figure absent. -/
theorem tune_zone_none (classzone_idx : Nat) :
    ∀ (zones : List Zone) (other_free : Int),
      (tune_lmk_zone_param zones classzone_idx other_free none).2 = none := by
  intro zones
  induction zones with
  | nil => intro other_free; simp [tune_lmk_zone_param]
  | cons z zs ih =>
    intro other_free
    simp only [tune_lmk_zone_param]
    by_cases h0 : z.idx = ZONE_MOVABLE
    · rw [if_pos h0]; exact ih _
    · rw [if_neg h0]
      by_cases h1 : classzone_idx < z.idx
      · rw [if_pos h1]; exact ih _
      · rw [if_neg h1]
        by_cases h2 : z.idx < classzone_idx
        · rw [if_pos h2]
          by_cases h3 : z.wmarkOk classzone_idx
          · rw [if_pos h3]; exact ih _
          · rw [if_neg h3]; exact ih _
        · rw [if_neg h2]; exact ih _

/-- C6: on a zonelist without ZONE_MOVABLE entries, the memory estimate
subtracts, from the free figure, each more-restrictive zone's free pages
and each more-permissive zone's lowmem reserve for the implied zone
(when its watermark is satisfied) or actual free pages (otherwise), and
subtracts each more-restrictive zone's file-minus-shared pages from the
reclaimable-file figure; the arithmetic is over ℤ, so negative
intermediate results are permitted. -/
theorem zone_param_debits (zones : List Zone) (classzone_idx : Nat)
    (other_free other_file : Int)
    (hmov : ∀ z ∈ zones, z.idx ≠ ZONE_MOVABLE) :
    tune_lmk_zone_param zones classzone_idx other_free (some other_file) =
      (other_free - zoneFreeDebit classzone_idx zones,
       some (other_file - zoneFileDebit classzone_idx zones)) :=
  tune_zone_closed classzone_idx zones hmov other_free other_file

/-- Restrictive zone used in zone-tuning witnesses: index 2, 7 free
pages, 9 file pages of which 4 shared. -/
def zoneR : Zone :=
  { idx := 2, freePages := 7, filePages := 9, shmemPages := 4,
    lowmemReserve := fun _ => 0, wmarkOk := fun _ => true }

/-- Permissive zone used in zone-tuning witnesses: index 0, watermark
satisfied, reserve 5 for every classzone. -/
def zoneP : Zone :=
  { idx := 0, freePages := 30, filePages := 11, shmemPages := 1,
    lowmemReserve := fun _ => 5, wmarkOk := fun _ => true }

/-- Witness for C6: with classzone 1, starting figures (100, 50), the
restrictive zone debits 7 free and 5 file pages and the permissive zone
debits its reserve 5, giving (88, 45). -/
theorem zone_param_debits_wit :
    tune_lmk_zone_param [zoneR, zoneP] 1 100 (some 50) = (88, some 45) := by
  have h := zone_param_debits [zoneR, zoneP] 1 100 50 (by decide)
  exact h.trans (by decide)

/-- Zone-tuning context for C7: kswapd caller, preferred zone above the
high watermark plus balance gap, one restrictive zone whose
file-minus-shared count is 100 pages. -/
def ctxKswapd : TuneParamCtx :=
  { zones := [{ idx := 2, freePages := 50, filePages := 120, shmemPages := 20,
                lowmemReserve := fun _ => 0, wmarkOk := fun _ => true }],
    classzoneIdx := 1, isKswapd := true, kswapdWmarkOk := true,
    preferredWmarkOk := true, preferredReserve := 0, preferredFree := 0 }

/-- C7 counterexample: with kswapd comfortably above its watermark and
fast_run ENABLED, the file-cache subtraction is applied, not skipped —
starting from a reclaimable-file figure of 0 the result is -100, not 0.
This refutes the claim that the fast-run mode skips the file-cache
subtraction in that situation. -/
theorem fast_run_claim_false :
    ctxKswapd.isKswapd = true ∧ ctxKswapd.kswapdWmarkOk = true
    ∧ (tune_lmk_param true ctxKswapd 0 0).2 = -100
    ∧ (tune_lmk_param true ctxKswapd 0 0).2 ≠ 0 := by
  decide

/-- C7 amended: when the caller is kswapd and the preferred zone is
above its high watermark plus the balance gap, the file-cache
subtraction is SKIPPED exactly when fast_run is disabled and applied
when fast_run is enabled; outside that situation the full adjustment
including the file-cache subtraction is applied regardless of
fast_run.  (Stated on zonelists without ZONE_MOVABLE entries.) -/
theorem fast_run_file_adjustment (lmk_fast_run : Bool) (ctx : TuneParamCtx)
    (other_free other_file : Int)
    (hmov : ∀ z ∈ ctx.zones, z.idx ≠ ZONE_MOVABLE) :
    (tune_lmk_param lmk_fast_run ctx other_free other_file).2 =
      if ctx.isKswapd && ctx.kswapdWmarkOk then
        (if lmk_fast_run then
          other_file - zoneFileDebit ctx.classzoneIdx ctx.zones
        else other_file)
      else other_file - zoneFileDebit ctx.classzoneIdx ctx.zones := by
  unfold tune_lmk_param
  by_cases hks : ctx.isKswapd && ctx.kswapdWmarkOk
  · rw [if_pos hks, if_pos hks]
    by_cases hf : lmk_fast_run
    · rw [if_pos hf, if_pos hf]
      simp [tune_zone_closed ctx.classzoneIdx ctx.zones hmov]
    · rw [if_neg hf, if_neg hf]
      simp [tune_zone_none ctx.classzoneIdx ctx.zones]
  · rw [if_neg hks, if_neg hks]
    simp [tune_zone_closed ctx.classzoneIdx ctx.zones hmov]

/-- Witness for C7 (amended): in the kswapd fast branch, fast_run
disabled leaves the file figure at 0, fast_run enabled debits the
restrictive zone's 100 file-minus-shared pages. -/
theorem fast_run_file_adjustment_wit :
    (tune_lmk_param false ctxKswapd 0 0).2 = 0
    ∧ (tune_lmk_param true ctxKswapd 0 0).2 = -100 := by
  constructor
  · have h := fast_run_file_adjustment false ctxKswapd 0 0 (by decide)
    exact h.trans (by decide)
  · have h := fast_run_file_adjustment true ctxKswapd 0 0 (by decide)
    exact h.trans (by decide)

end Lmk
